import Mathlib

/-!
Verification of the scoring, standings, upload, day-constraint and login logic
of the PUBG point-tracker application, shallowly embedded from the TypeScript
components and SQL migrations of the repository.
-/

namespace PubgBot

/-! ### Scoring calculator

`PLACEMENT_POINTS` is the record literal that appears (identically) in
`PlayerDashboard.handleFileUpload`, `PlayerDashboard.fetchTeams` and
`AdminDashboard.fetchTeams`:
`{1: 10, 2: 6, 3: 5, 4: 4, 5: 3, 6: 2, 7: 1, 8: 1, 9: 0, ..., 32: 0}`.
Indexing a JS record with an absent key yields `undefined`, modelled as `none`.
-/

/-- The `PLACEMENT_POINTS` record: `some v` for the keys 1..32 present in the
literal, `none` (JS `undefined`) for every other index. -/
def PLACEMENT_POINTS (p : Int) : Option Int :=
  if p = 1 then some 10
  else if p = 2 then some 6
  else if p = 3 then some 5
  else if p = 4 then some 4
  else if p = 5 then some 3
  else if p = 6 then some 2
  else if p = 7 then some 1
  else if p = 8 then some 1
  else if 9 ≤ p ∧ p ≤ 32 then some 0
  else none

/-- JS `x || 0` on a nullable/possibly-undefined number: `null`/`undefined`
and `0` are falsy, so they give `0`; any other number gives itself. -/
def jsOrZero : Option Int → Int
  | none => 0
  | some x => if x = 0 then 0 else x

/-- `PLACEMENT_POINTS[placement] || 0` as computed in `handleFileUpload`
(line 251 of PlayerDashboard.tsx). -/
def placementPointsOf (p : Int) : Int := jsOrZero (PLACEMENT_POINTS p)

/-- The upload-time scoring computation of `handleFileUpload`:
`points = placementPoints + kills` (line 252 of PlayerDashboard.tsx). -/
def uploadPoints (placement kills : Int) : Int :=
  placementPointsOf placement + kills

/-- `PLACEMENT_POINTS[match.placement || 0] || 0`: the placement contribution
used by the standings aggregations in `AdminDashboard.fetchTeams` (line 103)
and `PlayerDashboard.fetchTeams` (line 133); the stored placement is nullable. -/
def standingsPlacementContribution (placement : Option Int) : Int :=
  placementPointsOf (jsOrZero placement)

/-- Modelled from the spec: `calculatePoints` is imported from
`@/types/tournament`, a file not present under `src/`. Spec §4.1 gives its
algorithm: look the placement up in the fixed table 1→10, 2→6, 3→5, 4→4,
5→3, 6→2, 7–8→1, 9+→0, with unknown/out-of-range placements mapping to 0
placement points, and return placement points plus one point per kill. -/
def calculatePoints (placement kills : Int) : Int :=
  (if placement = 1 then 10
   else if placement = 2 then 6
   else if placement = 3 then 5
   else if placement = 4 then 4
   else if placement = 5 then 3
   else if placement = 6 then 2
   else if placement = 7 ∨ placement = 8 then 1
   else 0) + kills

lemma jsOrZero_eq_getD (o : Option Int) : jsOrZero o = o.getD 0 := by
  cases o with
  | none => rfl
  | some x =>
    simp only [jsOrZero, Option.getD_some]
    split_ifs with h
    · omega
    · rfl

lemma placementPointsOf_of_ge9 (p : Int) (h : 9 ≤ p) : placementPointsOf p = 0 := by
  unfold placementPointsOf PLACEMENT_POINTS
  split_ifs with h1 h2 h3 h4 h5 h6 h7 h8 h9
  all_goals first
    | rfl
    | (exfalso; omega)

lemma placementPointsOf_nonneg (p : Int) : 0 ≤ placementPointsOf p := by
  unfold placementPointsOf PLACEMENT_POINTS jsOrZero
  split_ifs <;> simp

/-- C1: for every placement 1..8 the scoring computation returns the table
value (1→10, 2→6, 3→5, 4→4, 5→3, 6→2, 7→1, 8→1) plus the kill count; for
every placement ≥ 9 and for a null placement the placement contribution is 0,
so the result equals the kill count; in particular placement 1 with 5 kills
gives 15, placement 9 with 3 kills gives 3, and a null placement with 0 kills
gives 0. -/
theorem scoring_matches_placement_table :
    (∀ k : Int,
      uploadPoints 1 k = 10 + k ∧ uploadPoints 2 k = 6 + k ∧
      uploadPoints 3 k = 5 + k ∧ uploadPoints 4 k = 4 + k ∧
      uploadPoints 5 k = 3 + k ∧ uploadPoints 6 k = 2 + k ∧
      uploadPoints 7 k = 1 + k ∧ uploadPoints 8 k = 1 + k) ∧
    (∀ p k : Int, 9 ≤ p → uploadPoints p k = k) ∧
    standingsPlacementContribution none = 0 ∧
    uploadPoints 1 5 = 15 ∧ uploadPoints 9 3 = 3 ∧
    standingsPlacementContribution none + 0 = 0 := by
  refine ⟨?_, ?_, rfl, rfl, rfl, rfl⟩
  · intro k
    refine ⟨?_, ?_, ?_, ?_, ?_, ?_, ?_, ?_⟩ <;> rfl
  · intro p k hp
    unfold uploadPoints
    rw [placementPointsOf_of_ge9 p hp]
    omega

/-- Witness for the claim-C1 theorem at placement 12, kills 4. -/
theorem scoring_matches_placement_table_witness :
    uploadPoints 3 2 = 5 + 2 ∧ uploadPoints 12 4 = 4 :=
  ⟨(scoring_matches_placement_table.1 2).2.2.1,
   scoring_matches_placement_table.2.1 12 4 (by decide)⟩

/-- C3: for every placement ≥ 1 and kill count ≥ 0, the upload-time inline
computation, the manual-correction `calculatePoints` used by the admin edit,
and the placement-points table used in standings aggregation all return the
same value. -/
theorem scoring_same_at_all_call_sites (p k : Int) (hp : 1 ≤ p) (hk : 0 ≤ k) :
    uploadPoints p k = calculatePoints p k ∧
    uploadPoints p k = standingsPlacementContribution (some p) + k := by
  constructor
  · unfold uploadPoints calculatePoints placementPointsOf PLACEMENT_POINTS jsOrZero
    split_ifs <;> first | rfl | omega
  · have hp0 : p ≠ 0 := by omega
    unfold standingsPlacementContribution jsOrZero
    simp [hp0, uploadPoints]

/-- Witness for the claim-C3 theorem at placement 7, kills 3. -/
theorem scoring_same_at_all_call_sites_witness :
    uploadPoints 7 3 = calculatePoints 7 3 ∧
    uploadPoints 7 3 = standingsPlacementContribution (some 7) + 3 :=
  scoring_same_at_all_call_sites 7 3 (by decide) (by decide)

/-- C6: for every placement rank ≥ 1 and kill count ≥ 0, the scoring
calculator returns a non-negative integer. -/
theorem scoring_nonneg (p k : Int) (hp : 1 ≤ p) (hk : 0 ≤ k) :
    0 ≤ uploadPoints p k := by
  unfold uploadPoints
  have := placementPointsOf_nonneg p
  omega

/-- Witness for the claim-C6 theorem at placement 2, kills 0. -/
theorem scoring_nonneg_witness : 0 ≤ uploadPoints 2 0 :=
  scoring_nonneg 2 0 (by decide) (by decide)

/-! ### Standings aggregation

`AdminDashboard.fetchTeams` selects `team_id, placement, kills, points` from
`match_screenshots`, filters the rows by team, and aggregates:
`totalPoints = reduce (sum, m) => sum + (m.points || 0)`,
`totalKills  = reduce (sum, m) => sum + (m.kills || 0)`,
`firstPlaceWins = filter(m => m.placement === 1).length`.
`PlayerDashboard.fetchTeams` does the same with a single `forEach` pass. -/

/-- A row of the `match_screenshots` selection used by the standings
aggregation: `placement`, `kills` and `points` are nullable columns. -/
structure MatchRow where
  team_id : Nat
  placement : Option Int
  kills : Option Int
  points : Option Int
deriving DecidableEq, Repr

/-- `allMatches.filter(m => m.team_id === team.id)`. -/
def teamMatches (teamId : Nat) (ms : List MatchRow) : List MatchRow :=
  ms.filter (fun m => m.team_id == teamId)

/-- `teamMatches.reduce((sum, m) => sum + (m.points || 0), 0)` from
`AdminDashboard.fetchTeams`. -/
def adminTotalPoints (teamId : Nat) (ms : List MatchRow) : Int :=
  (teamMatches teamId ms).foldl (fun sum m => sum + jsOrZero m.points) 0

/-- `teamMatches.reduce((sum, m) => sum + (m.kills || 0), 0)` from
`AdminDashboard.fetchTeams`. -/
def adminTotalKills (teamId : Nat) (ms : List MatchRow) : Int :=
  (teamMatches teamId ms).foldl (fun sum m => sum + jsOrZero m.kills) 0

/-- `teamMatches.filter(m => m.placement === 1).length` from
`AdminDashboard.fetchTeams` (also the expression in
`PlayerDashboard.fetchTeams`). -/
def adminFirstPlaceWins (teamId : Nat) (ms : List MatchRow) : Nat :=
  ((teamMatches teamId ms).filter (fun m => m.placement == some 1)).length

/-- The single `forEach` pass of `PlayerDashboard.fetchTeams`, accumulating
`(totalPoints, totalKills, placementPoints)` across the team's rows. -/
def playerTeamStats (teamId : Nat) (ms : List MatchRow) : Int × Int × Int :=
  (teamMatches teamId ms).foldl
    (fun acc m =>
      (acc.1 + jsOrZero m.points, acc.2.1 + jsOrZero m.kills,
       acc.2.2 + standingsPlacementContribution m.placement))
    (0, 0, 0)

lemma foldl_add_eq_sum {α : Type} (f : α → Int) :
    ∀ (l : List α) (a : Int),
      l.foldl (fun sum m => sum + f m) a = a + (l.map f).sum := by
  intro l
  induction l with
  | nil => intro a; simp
  | cons x xs ih =>
    intro a
    simp only [List.foldl_cons, List.map_cons, List.sum_cons, ih]
    ring

lemma playerTeamStats_foldl (teamId : Nat) (ms : List MatchRow) :
    ∀ (a : Int × Int × Int),
      (teamMatches teamId ms).foldl
        (fun acc m =>
          (acc.1 + jsOrZero m.points, acc.2.1 + jsOrZero m.kills,
           acc.2.2 + standingsPlacementContribution m.placement)) a
      = (a.1 + (teamMatches teamId ms).foldl (fun s m => s + jsOrZero m.points) 0,
         a.2.1 + (teamMatches teamId ms).foldl (fun s m => s + jsOrZero m.kills) 0,
         a.2.2 + (teamMatches teamId ms).foldl
           (fun s m => s + standingsPlacementContribution m.placement) 0) := by
  induction teamMatches teamId ms with
  | nil => intro a; simp
  | cons x xs ih =>
    intro a
    simp only [List.foldl_cons, ih, foldl_add_eq_sum]
    refine Prod.ext ?_ (Prod.ext ?_ ?_) <;> simp <;> ring

/-- C2: for every team, the standings aggregation computes `totalPoints`
equal to the sum of the `points` field over the team's rows (null counted
as 0), `totalKills` equal to the sum of the `kills` field (null counted as
0), and `firstPlaceWins` equal to the number of the team's rows whose
placement equals 1; the player-dashboard single-pass aggregation agrees. -/
theorem standings_aggregation_correct (teamId : Nat) (ms : List MatchRow) :
    adminTotalPoints teamId ms
      = ((teamMatches teamId ms).map (fun m => m.points.getD 0)).sum ∧
    adminTotalKills teamId ms
      = ((teamMatches teamId ms).map (fun m => m.kills.getD 0)).sum ∧
    adminFirstPlaceWins teamId ms
      = (teamMatches teamId ms).countP (fun m => m.placement == some 1) ∧
    (playerTeamStats teamId ms).1 = adminTotalPoints teamId ms ∧
    (playerTeamStats teamId ms).2.1 = adminTotalKills teamId ms := by
  refine ⟨?_, ?_, ?_, ?_, ?_⟩
  · rw [adminTotalPoints, foldl_add_eq_sum]
    simp only [zero_add]
    congr 1
    apply List.map_congr_left
    intro m _
    exact jsOrZero_eq_getD m.points
  · rw [adminTotalKills, foldl_add_eq_sum]
    simp only [zero_add]
    congr 1
    apply List.map_congr_left
    intro m _
    exact jsOrZero_eq_getD m.kills
  · rw [adminFirstPlaceWins, List.countP_eq_length_filter]
  · rw [playerTeamStats, playerTeamStats_foldl]
    simp [adminTotalPoints]
  · rw [playerTeamStats, playerTeamStats_foldl]
    simp [adminTotalKills]

/-! ### The upload flow (`PlayerDashboard.handleFileUpload`)

The handler first runs four early-return guards (empty selection, no team
selected, team already at the 12-screenshot cap, batch would pass the cap,
batch larger than 4 files, non-image file present), then processes each file
in order: store the image, invoke `analyze-screenshot`, reject null results,
compute points and insert a `match_screenshots` row.  Each external step's
outcome is part of the file's environment. -/

/-- The environment of one file of the batch: whether it is an image, and
the outcomes of the storage upload, the analysis call (with its extracted
nullable placement and kills) and the database insert. -/
structure UploadFile where
  isImage : Bool
  storageOk : Bool
  analysisOk : Bool
  placement : Option Int
  kills : Option Int
  dbOk : Bool
deriving DecidableEq, Repr

/-- A `match_screenshots` row as inserted by `handleFileUpload`: placement
and kills are the (non-null) analysis results, points the computed total. -/
structure InsertedRow where
  team_id : Nat
  player_id : Nat
  day : Int
  screenshot_url : Nat
  placement : Int
  kills : Int
  points : Int
deriving DecidableEq, Repr

/-- The externally visible state touched by the upload flow: the object
store (`match-screenshots` bucket, files by identifier) and the
`match_screenshots` table rows, both in creation order. -/
structure UploadState where
  stored : List Nat
  rows : List InsertedRow
deriving DecidableEq, Repr

/-- One iteration of the per-file loop of `handleFileUpload` (lines
199–277): upload to storage (a failure is caught and skips the file),
analyze (an error or a null placement/kills `continue`s), compute points
and insert; a database error only logs and counts a failure.  No step ever
removes a stored file or an inserted row. -/
def processFile (teamId playerId : Nat) (day : Int) (fileId : Nat)
    (f : UploadFile) (s : UploadState) : UploadState :=
  if ¬ f.storageOk then s
  else
    let s1 : UploadState := { s with stored := s.stored ++ [fileId] }
    if ¬ f.analysisOk then s1
    else
      match f.placement, f.kills with
      | some p, some k =>
        if f.dbOk then
          { s1 with rows := s1.rows ++
              [⟨teamId, playerId, day, fileId, p, k, uploadPoints p k⟩] }
        else s1
      | _, _ => s1

/-- The `for` loop of `handleFileUpload` over the selected files (paired
with their storage identifiers), in order. -/
def processFiles (teamId playerId : Nat) (day : Int)
    (files : List (Nat × UploadFile)) (s : UploadState) : UploadState :=
  files.foldl (fun st fp => processFile teamId playerId day fp.1 fp.2 st) s

/-- `handleFileUpload` (lines 155–302): the early-return guards in source
order, then the per-file loop.  `currentUploads` is
`teamUploadCounts[selectedTeamId] || 0`. -/
def handleFileUpload (teamId playerId : Nat) (teamSelected : Bool)
    (currentUploads : Nat) (day : Int) (files : List (Nat × UploadFile))
    (s : UploadState) : UploadState :=
  if files.length = 0 then s
  else if ¬ teamSelected then s
  else if 12 ≤ currentUploads then s
  else if 12 < currentUploads + files.length then s
  else if 4 < files.length then s
  else if files.any (fun fp => ¬ fp.2.isImage) then s
  else processFiles teamId playerId day files s

/-- C4: an upload attempt is rejected with the `match_screenshots` state
(and the object store) unchanged whenever the selected team already has 12
or more recorded screenshots, or its current count plus the number of
selected files exceeds 12. -/
theorem upload_cap_rejected (teamId playerId : Nat) (teamSelected : Bool)
    (currentUploads : Nat) (day : Int) (files : List (Nat × UploadFile))
    (s : UploadState)
    (h : 12 ≤ currentUploads ∨ 12 < currentUploads + files.length) :
    handleFileUpload teamId playerId teamSelected currentUploads day files s = s := by
  unfold handleFileUpload
  split_ifs with h1 h2 h3 h4 <;> first | rfl | omega

/-- Witness for the claim-C4 theorem: a team at 12 uploads, one more file. -/
theorem upload_cap_rejected_witness :
    handleFileUpload 1 2 true 12 1 [(0, ⟨true, true, true, some 1, some 0, true⟩)]
      ⟨[], []⟩ = ⟨[], []⟩ :=
  upload_cap_rejected 1 2 true 12 1 [(0, ⟨true, true, true, some 1, some 0, true⟩)]
    ⟨[], []⟩ (by left; decide)

/-- C9: a batch of more than 4 files that passes the 12-screenshot cap
checks (evaluated first) is rejected before any storage upload or database
insert: the state is unchanged. -/
theorem upload_batch_limit_rejected (teamId playerId : Nat) (teamSelected : Bool)
    (currentUploads : Nat) (day : Int) (files : List (Nat × UploadFile))
    (s : UploadState)
    (hcap : currentUploads < 12) (hsum : currentUploads + files.length ≤ 12)
    (hbig : 4 < files.length) :
    handleFileUpload teamId playerId teamSelected currentUploads day files s = s := by
  unfold handleFileUpload
  split_ifs with h1 h2 h3 h4 <;> first | rfl | omega

/-- Witness for the claim-C9 theorem: 5 files for a team at 0 uploads. -/
theorem upload_batch_limit_rejected_witness :
    handleFileUpload 1 2 true 0 1
      (List.range 5 |>.map (fun i => (i, ⟨true, true, true, some 1, some 0, true⟩)))
      ⟨[], []⟩ = ⟨[], []⟩ :=
  upload_batch_limit_rejected 1 2 true 0 1
    (List.range 5 |>.map (fun i => (i, ⟨true, true, true, some 1, some 0, true⟩)))
    ⟨[], []⟩ (by decide) (by decide) (by decide)

/-- C7: in the per-file loop, a file whose storage upload succeeded but whose
analysis call errored, whose analysis returned a null placement or null
kills, or whose database insert failed, contributes no `match_screenshots`
row, leaves its stored image in storage (nothing is removed), and the loop
continues with the remaining files of the batch. -/
theorem upload_failure_leaves_orphan_and_continues (teamId playerId : Nat)
    (day : Int) (fileId : Nat) (f : UploadFile) (s : UploadState)
    (rest : List (Nat × UploadFile))
    (hstore : f.storageOk = true)
    (hfail : f.analysisOk = false ∨ f.placement = none ∨ f.kills = none ∨
      f.dbOk = false) :
    (processFile teamId playerId day fileId f s).rows = s.rows ∧
    (processFile teamId playerId day fileId f s).stored = s.stored ++ [fileId] ∧
    processFiles teamId playerId day ((fileId, f) :: rest) s
      = processFiles teamId playerId day rest
          (processFile teamId playerId day fileId f s) := by
  obtain ⟨im, st, an, pl, ki, db⟩ := f
  refine ⟨?_, ?_, rfl⟩ <;>
    (cases an <;> cases pl <;> cases ki <;> cases db <;>
      simp_all [processFile])

/-- Witness for the claim-C7 theorem: a stored file whose analysis errors. -/
theorem upload_failure_leaves_orphan_and_continues_witness :
    (processFile 1 2 1 0 ⟨true, true, false, none, none, true⟩ ⟨[], []⟩).rows = [] ∧
    (processFile 1 2 1 0 ⟨true, true, false, none, none, true⟩ ⟨[], []⟩).stored
      = [] ++ [0] ∧
    processFiles 1 2 1 [(0, ⟨true, true, false, none, none, true⟩)] ⟨[], []⟩
      = processFiles 1 2 1 []
          (processFile 1 2 1 0 ⟨true, true, false, none, none, true⟩ ⟨[], []⟩) :=
  upload_failure_leaves_orphan_and_continues 1 2 1 0
    ⟨true, true, false, none, none, true⟩ ⟨[], []⟩ [] rfl (Or.inl rfl)

lemma processFile_rows_sound (teamId playerId : Nat) (day : Int) (fileId : Nat)
    (f : UploadFile) (s : UploadState) :
    ∀ r ∈ (processFile teamId playerId day fileId f s).rows,
      r ∈ s.rows ∨
      (f.placement = some r.placement ∧ f.kills = some r.kills ∧
       r.points = uploadPoints r.placement r.kills) := by
  intro r hr
  obtain ⟨im, st, an, pl, ki, db⟩ := f
  cases st <;> cases an <;> cases pl <;> cases ki <;> cases db <;>
    simp_all [processFile] <;>
    (rcases hr with hr | hr
     · exact Or.inl hr
     · subst hr; simp)

/-- C8: every `match_screenshots` row created by the upload path carries a
non-null placement and non-null kills taken from the analysis result, and
its points equal the scoring function applied to them; rows of the final
state are either pre-existing or arise this way from one of the batch's
files. -/
theorem upload_rows_well_formed (teamId playerId : Nat) (day : Int)
    (files : List (Nat × UploadFile)) (s : UploadState) :
    ∀ r ∈ (processFiles teamId playerId day files s).rows,
      r ∈ s.rows ∨
      ∃ fp ∈ files, fp.2.placement = some r.placement ∧
        fp.2.kills = some r.kills ∧
        r.points = uploadPoints r.placement r.kills := by
  induction files generalizing s with
  | nil => intro r hr; exact Or.inl hr
  | cons x xs ih =>
    intro r hr
    rcases ih (processFile teamId playerId day x.1 x.2 s) r hr with h | h
    · rcases processFile_rows_sound teamId playerId day x.1 x.2 s r h with h' | h'
      · exact Or.inl h'
      · exact Or.inr ⟨x, List.mem_cons_self x xs, h'⟩
    · obtain ⟨fp, hfp, hh⟩ := h
      exact Or.inr ⟨fp, List.mem_cons_of_mem x hfp, hh⟩

/-- Witness for the claim-C8 theorem: the row inserted for a fully
successful file has the analyzed placement 3, kills 2 and points 7. -/
theorem upload_rows_well_formed_witness :
    (⟨1, 2, 1, 0, 3, 2, 7⟩ : InsertedRow) ∈
      (processFiles 1 2 1 [(0, ⟨true, true, true, some 3, some 2, true⟩)]
        ⟨[], []⟩).rows ∧
    ((⟨1, 2, 1, 0, 3, 2, 7⟩ : InsertedRow) ∈ ([] : List InsertedRow) ∨
      ∃ fp ∈ [((0 : Nat), (⟨true, true, true, some 3, some 2, true⟩ : UploadFile))],
        fp.2.placement = some 3 ∧ fp.2.kills = some 2 ∧
        (7 : Int) = uploadPoints 3 2) :=
  ⟨by decide,
   upload_rows_well_formed 1 2 1 [(0, ⟨true, true, true, some 3, some 2, true⟩)]
     ⟨[], []⟩ ⟨1, 2, 1, 0, 3, 2, 7⟩ (by decide)⟩

/-! ### The `day` constraint

The migration adds
`ALTER TABLE match_screenshots ADD COLUMN day integer NOT NULL DEFAULT 1
CHECK (day >= 1 AND day <= 3)`; the upload form's day `Select` offers
exactly the items "1", "2" and "3". -/

/-- The SQL `CHECK (day >= 1 AND day <= 3)` constraint on
`match_screenshots.day`. -/
def dayCheck (d : Int) : Bool := 1 ≤ d && d ≤ 3

/-- An insert into `match_screenshots` restricted to the `day` column: the
database rejects the statement (returns `none`) when the CHECK fails. -/
def dbInsertDay (rows : List Int) (d : Int) : Option (List Int) :=
  if dayCheck d then some (rows ++ [d]) else none

/-- An update of row `i`'s `day` value: the database rejects the statement
when the CHECK fails on the new value. -/
def dbUpdateDay (rows : List Int) (i : Nat) (d : Int) : Option (List Int) :=
  if dayCheck d then some (rows.set i d) else none

/-- The day values offered by the upload form's `Select` (items "1", "2",
"3" in PlayerDashboard.tsx lines 436–438). -/
def daySelectOptions : List Int := [1, 2, 3]

/-- C5: `dayCheck` holds exactly on {1,2,3}; an insert or update with a day
outside this range is rejected; inserts and updates that succeed preserve
the invariant that every row's day is in {1,2,3}; and the upload interface
only offers days 1, 2 and 3. -/
theorem day_constrained_to_1_2_3 :
    (∀ d : Int, dayCheck d = true ↔ (d = 1 ∨ d = 2 ∨ d = 3)) ∧
    (∀ rows d, dayCheck d = false → dbInsertDay rows d = none) ∧
    (∀ rows i d, dayCheck d = false → dbUpdateDay rows i d = none) ∧
    (∀ rows d rows', (∀ x ∈ rows, dayCheck x = true) →
      dbInsertDay rows d = some rows' → ∀ x ∈ rows', dayCheck x = true) ∧
    (∀ rows i d rows', (∀ x ∈ rows, dayCheck x = true) →
      dbUpdateDay rows i d = some rows' → ∀ x ∈ rows', dayCheck x = true) ∧
    (∀ d ∈ daySelectOptions, dayCheck d = true) := by
  refine ⟨?_, ?_, ?_, ?_, ?_, ?_⟩
  · intro d
    simp only [dayCheck, Bool.and_eq_true, decide_eq_true_eq]
    omega
  · intro rows d hd
    simp [dbInsertDay, hd]
  · intro rows i d hd
    simp [dbUpdateDay, hd]
  · intro rows d rows' hinv hins x hx
    unfold dbInsertDay at hins
    split_ifs at hins with hd
    · obtain rfl : rows ++ [d] = rows' := Option.some.inj hins
      rcases List.mem_append.mp hx with h | h
      · exact hinv x h
      · simpa [List.mem_singleton.mp h] using hd
  · intro rows i d rows' hinv hupd x hx
    unfold dbUpdateDay at hupd
    split_ifs at hupd with hd
    · obtain rfl : rows.set i d = rows' := Option.some.inj hupd
      rcases List.mem_or_eq_of_mem_set hx with h | h
      · exact hinv x h
      · simpa [h] using hd
  · intro d hd
    fin_cases hd <;> decide

/-- Witness for the claim-C5 theorem: day 4 is rejected, day 2 accepted and
invariant-preserving, and each offered day passes the check. -/
theorem day_constrained_to_1_2_3_witness :
    dbInsertDay [1, 3] 4 = none ∧
    (∀ x ∈ [1, 3, 2], dayCheck x = true) ∧
    dayCheck 2 = true :=
  ⟨day_constrained_to_1_2_3.2.1 [1, 3] 4 (by decide),
   day_constrained_to_1_2_3.2.2.2.1 [1, 3] 2 [1, 3, 2] (by decide) (by decide),
   day_constrained_to_1_2_3.2.2.2.2.2 2 (by decide)⟩

/-! ### Access-code login (`Auth.handleAccessCode`)

`handleAccessCode` signs in anonymously, validates the entered code with the
server-side `validate_access_code`, and inserts a `sessions` row carrying
the validated role and team; on a validation or insert failure it signs the
anonymous user back out. -/

/-- The result row of `validate_access_code`: a role and an optional team
assignment. -/
structure CodeData where
  role : String
  team_id : Option Nat
deriving DecidableEq, Repr

/-- A row of the `sessions` table as inserted by `handleAccessCode`. -/
structure SessionRow where
  user_id : Nat
  code_used : String
  role : String
  team_id : Option Nat
deriving DecidableEq, Repr

/-- The authentication state visible to the flow: whether an anonymous user
is signed in, and the `sessions` rows. -/
structure AuthState where
  signedIn : Bool
  sessions : List SessionRow
deriving DecidableEq, Repr

/-- The environment of one `handleAccessCode` run: whether
`signInAnonymously` succeeded with a user, that user's id, the
`validate_access_code` result (`none` for an error or no data), and whether
the `sessions` insert succeeded. -/
structure AccessCodeEnv where
  authOk : Bool
  userId : Nat
  codeData : Option CodeData
  insertOk : Bool
deriving DecidableEq, Repr

/-- `Auth.handleAccessCode` (part_002 lines 26–85): sign in anonymously
(an auth failure returns with the state unchanged), validate the code (a
failure signs out), insert the session row (a failure signs out). -/
def handleAccessCode (code : String) (env : AccessCodeEnv) (s : AuthState) :
    AuthState :=
  if ¬ env.authOk then s
  else
    let s1 : AuthState := { s with signedIn := true }
    match env.codeData with
    | none => { s1 with signedIn := false }
    | some cd =>
      if env.insertOk then
        { s1 with sessions := s1.sessions ++
            [⟨env.userId, code, cd.role, cd.team_id⟩] }
      else { s1 with signedIn := false }

/-- C10: if code validation fails or returns no data, or the sessions
insert fails, the flow signs the anonymous user out and the sessions rows
are unchanged; the sessions rows change only when validation succeeded and
the insert succeeded, and then exactly one row carrying the validated
code's role and team is appended. -/
theorem access_code_login_safe (code : String) (env : AccessCodeEnv)
    (s : AuthState) (hauth : env.authOk = true) :
    (env.codeData = none →
      (handleAccessCode code env s).signedIn = false ∧
      (handleAccessCode code env s).sessions = s.sessions) ∧
    (env.insertOk = false →
      (handleAccessCode code env s).signedIn = false ∧
      (handleAccessCode code env s).sessions = s.sessions) ∧
    ((handleAccessCode code env s).sessions ≠ s.sessions →
      ∃ cd, env.codeData = some cd ∧ env.insertOk = true ∧
        (handleAccessCode code env s).sessions
          = s.sessions ++ [⟨env.userId, code, cd.role, cd.team_id⟩]) := by
  obtain ⟨ok, uid, cdata, ins⟩ := env
  refine ⟨?_, ?_, ?_⟩
  · intro hcd
    simp_all [handleAccessCode]
  · intro hins
    cases cdata <;> simp_all [handleAccessCode]
  · intro hne
    cases cdata with
    | none => simp_all [handleAccessCode]
    | some cd =>
      cases ins with
      | false => simp_all [handleAccessCode]
      | true =>
        refine ⟨cd, rfl, rfl, ?_⟩
        simp_all [handleAccessCode]

/-- Witness for the claim-C10 theorem: a failed validation signs out and
leaves the sessions unchanged. -/
theorem access_code_login_safe_witness :
    (handleAccessCode "X1" ⟨true, 7, none, true⟩ ⟨false, []⟩).signedIn = false ∧
    (handleAccessCode "X1" ⟨true, 7, none, true⟩ ⟨false, []⟩).sessions = [] :=
  (access_code_login_safe "X1" ⟨true, 7, none, true⟩ ⟨false, []⟩ rfl).1 rfl

end PubgBot
